import Mathlib

/-!
Verification of the Pass Entitlement & Role-Scoped Access subsystem of the
anygymAPI backend, as a shallow embedding in Lean.

The embedding follows the TypeScript service layer:
* `PassesService.validateTierAccess` and `PassesService.generatePass`
  (passes.service.ts, version with the quota and duplicate-active-pass
  checks),
* `PassesCronService.expirePasses` (passes-cron.service.ts),
* `UsersService.findAdminGyms`, `UsersService.findAdminPasses`,
  `UsersService.createAdminUser`, `UsersService.checkInPass`
  (users.service.ts).

Database tables are lists of records; the relational queries the services
issue are embedded as the corresponding list operations (`find?` for
`findOne`/`getOne`, `filter` for `WHERE`-scoped `getMany`, `map` for the
bulk `UPDATE`).  Timestamps are naturals (milliseconds).  Nondeterministic
inputs of the services (wall clock, the random pass-code suffix, the Auth0
user id minted by the external identity provider) are explicit parameters.
JavaScript truthiness tests on nullable numeric columns are embedded by
`truthyChainId`, and the JavaScript string methods are embedded over the
character list of the string so that concrete instances evaluate inside
the kernel.
-/

namespace Anygym

/-- Row of the `subscriptions` table (fields used by the pass subsystem). -/
structure Subscription where
  userId : String
  tier : String
  monthlyLimit : Nat
  visitsUsed : Nat
  status : String
  deriving Repr, DecidableEq

/-- Row of the `gyms` table (fields used by the pass subsystem). -/
structure Gym where
  id : Nat
  gymChainId : Option Nat
  requiredTier : String
  status : String
  deriving Repr, DecidableEq

/-- Row of the `gym_chains` table. -/
structure GymChain where
  id : Nat
  name : String
  deriving Repr, DecidableEq

/-- Row of the `gym_passes` table.  `validUntil` and `usedAt` are nullable
timestamp columns; `passCost` mirrors the value set by `generatePass`.  The
`pass_code` column carries no uniqueness constraint in the entity. -/
structure GymPass where
  id : Nat
  userId : String
  gymId : Nat
  passCode : String
  status : String
  validUntil : Option Nat
  usedAt : Option Nat
  qrcodeUrl : String
  subscriptionTier : Option String
  passCost : Nat
  createdAt : Nat
  deriving Repr, DecidableEq

/-- Row of the `admin_users` table (authorization-relevant columns of the
entity; identity columns such as name and email are not consulted by the
scoped reads and writes verified here). -/
structure AdminUser where
  auth0Id : String
  gymChainId : Option Nat
  role : String
  accessGyms : Option (List Nat)
  deriving Repr, DecidableEq

/-- Row of the `app_users` table (fields used by the pass subsystem). -/
structure AppUser where
  auth0Id : String
  email : String
  deriving Repr, DecidableEq

/-- Row of the `pass_pricing` table. -/
structure PassPricing where
  tier : String
  defaultPrice : Nat
  deriving Repr, DecidableEq

/-- The relational store shared by the services.  `nextPassId` models the
autoincrement primary key of `gym_passes`. -/
structure DB where
  users : List AppUser
  admins : List AdminUser
  subscriptions : List Subscription
  gyms : List Gym
  chains : List GymChain
  passes : List GymPass
  pricing : List PassPricing
  nextPassId : Nat
  deriving Repr, DecidableEq

/-- JavaScript truthiness of a nullable numeric column: `null`/`undefined`
and `0` are falsy, every other number is truthy.  Used wherever the source
writes `if (x.gymChainId)` on the nullable `gym_chain_id` column. -/
def truthyChainId : Option Nat → Bool
  | none => false
  | some 0 => false
  | some (_ + 1) => true

/-- JavaScript `.toLowerCase()` (character-wise lowering). -/
def toLowerCase (s : String) : String := ⟨s.data.map Char.toLower⟩

/-- JavaScript `.toUpperCase()` (character-wise raising). -/
def toUpperCase (s : String) : String := ⟨s.data.map Char.toUpper⟩

/-- JavaScript `.trim()`: strip whitespace from both ends. -/
def jsTrim (s : String) : String :=
  ⟨((s.data.dropWhile Char.isWhitespace).reverse.dropWhile Char.isWhitespace).reverse⟩

/-- JavaScript `.startsWith(p)`. -/
def jsStartsWith (s p : String) : Bool := p.data.isPrefixOf s.data

/-! ## Tier gating (`PassesService.validateTierAccess`) -/

/-- The `tierLevels` object literal of `PassesService.validateTierAccess`:
`{ standard: 1, premium: 2, elite: 3 }`, `none` for a key that is absent. -/
def tierLevels (t : String) : Option Nat :=
  if t = "standard" then some 1
  else if t = "premium" then some 2
  else if t = "elite" then some 3
  else none

/-- `PassesService.validateTierAccess`: the subscription side defaults a
missing key to `0` (`|| 0`), the gym side to `999` (`|| 999`); access is
allowed when the subscription level is at least the gym level. -/
def validateTierAccess (subscriptionTier gymRequiredTier : String) : Bool :=
  let subscriptionLevel := (tierLevels (toLowerCase subscriptionTier)).getD 0
  let gymLevel := (tierLevels (toLowerCase gymRequiredTier)).getD 999
  decide (gymLevel ≤ subscriptionLevel)

/-- Modelled from the spec wording of the tier order, subscription side:
`standard < premium < elite` as levels 1 < 2 < 3, an unknown subscription
tier ranking lowest. -/
def specSubscriptionLevel (t : String) : Nat :=
  if toLowerCase t = "standard" then 1
  else if toLowerCase t = "premium" then 2
  else if toLowerCase t = "elite" then 3
  else 0

/-- Modelled from the spec wording of the tier order, gym side:
`standard < premium < elite` as levels 1 < 2 < 3, an unknown gym tier
ranking above every subscription level. -/
def specGymLevel (t : String) : Nat :=
  if toLowerCase t = "standard" then 1
  else if toLowerCase t = "premium" then 2
  else if toLowerCase t = "elite" then 3
  else 999

/-! ## Pass issuance (`PassesService.generatePass`) -/

/-- Body of the `GeneratePassDto` request. -/
structure GeneratePassDto where
  auth0_id : String
  gym_id : Nat
  deriving Repr, DecidableEq

/-- Failure outcomes of `generatePass`, in the order the source checks
them.  Every thrown exception of the source maps to one constructor;
`quotaExceeded` records the two counts interpolated into its message. -/
inductive PassError where
  | forbiddenNotSelf
  | noActiveSubscription
  | quotaExceeded (visitsUsed monthlyLimit : Nat)
  | duplicateActivePass
  | gymNotFound
  | gymInactive
  | tierNotAllowed (subscriptionTier gymRequiredTier : String)
  | userNotFound
  deriving Repr, DecidableEq

/-- The exception messages of `generatePass` (template literals of the
source, interpolation embedded as string append). -/
def passErrorMessage : PassError → String
  | .forbiddenNotSelf => "Access denied: You can only generate passes for yourself"
  | .noActiveSubscription => "You must have an active subscription to generate a pass"
  | .quotaExceeded used limit =>
      "You are out of passes for this month. You have used " ++ toString used ++
        " of " ++ toString limit ++ " available passes."
  | .duplicateActivePass =>
      "Only one active pass at a time. You must use or cancel your current active pass before generating a new one."
  | .gymNotFound => "Gym not found"
  | .gymInactive => "This gym is not currently active"
  | .tierNotAllowed s g =>
      "Your " ++ s ++ " subscription does not allow access to " ++ g ++ " tier gyms. " ++
        "Standard subscriptions can access standard gyms, premium can access standard and premium, " ++
        "and elite can access all gym tiers."
  | .userNotFound => "User not found"

/-- `SubscriptionsService.findByAuth0Id` with the `status: active` filter:
first `subscriptions` row of the member with status `active`; `none` is the
`NotFoundException` the caller maps to `noActiveSubscription`. -/
def findActiveSubscription (subs : List Subscription) (auth0Id : String) : Option Subscription :=
  subs.find? (fun s => s.userId == auth0Id && s.status == "active")

/-- Predicate of the step 1.6 query of `generatePass`: a row of the member
with `valid_until IS NOT NULL AND valid_until > now`. -/
def isActivePassFor (now : Nat) (auth0Id : String) (p : GymPass) : Bool :=
  p.userId == auth0Id && p.validUntil.any (fun v => decide (now < v))

/-- Step 1.6 of `generatePass`: does the member already hold a pass with
`valid_until > now`?  (`getOne` of the query returns a row.) -/
def hasActivePass (passes : List GymPass) (auth0Id : String) (now : Nat) : Bool :=
  passes.any (isActivePassFor now auth0Id)

/-- Step 6.5 of `generatePass`: `findOne({userId, status: active})` followed
by `save` with `visitsUsed + 1` — the first matching row is incremented; if
none matches the issue is only logged, never thrown. -/
def incrementFirstActiveSubscription (subs : List Subscription) (auth0Id : String) :
    List Subscription :=
  match subs with
  | [] => []
  | s :: rest =>
    if s.userId == auth0Id && s.status == "active" then
      { s with visitsUsed := s.visitsUsed + 1 } :: rest
    else s :: incrementFirstActiveSubscription rest auth0Id

/-- Step 5 of `generatePass`: `PASS-${Date.now()}-${random suffix}`.  The
wall clock (milliseconds) and the random suffix are explicit inputs; the
scheme performs no uniqueness check against existing rows. -/
def makePassCode (nowMs : Nat) (randomSuffix : String) : String :=
  "PASS-" ++ toString nowMs ++ "-" ++ randomSuffix

/-- QR code URL built from the pass code (the code's characters are
unreserved, so `encodeURIComponent` is the identity on them). -/
def makeQrCodeUrl (passCode : String) : String :=
  "https://api.qrserver.com/v1/create-qr-code/?size=300x300&data=" ++ passCode

/-- The `gym_passes` row created by step 6 of `generatePass` (including the
step 4 pricing lookup whose absence defaults the cost to 0). -/
def issuedPassRecord (db : DB) (now : Nat) (randomSuffix auth0Id : String)
    (dto : GeneratePassDto) (subscription : Subscription) : GymPass :=
  let passPricing := db.pricing.find? (fun p => p.tier == subscription.tier)
  let passCode := makePassCode now randomSuffix
  { id := db.nextPassId
    userId := auth0Id
    gymId := dto.gym_id
    passCode := passCode
    status := "active"
    validUntil := some (now + 2 * 60 * 60 * 1000)
    usedAt := none
    qrcodeUrl := makeQrCodeUrl passCode
    subscriptionTier := some subscription.tier
    passCost := (passPricing.map (fun p => p.defaultPrice)).getD 0
    createdAt := now }

/-- Store after steps 6 and 6.5 of `generatePass`: the new row is inserted
and the member's active subscription row has `visits_used` incremented (the
pass insert does not touch `subscriptions`, so the increment reads the same
rows as before the insert). -/
def dbAfterIssue (db : DB) (newPass : GymPass) (auth0Id : String) : DB :=
  { db with
    passes := db.passes ++ [newPass]
    nextPassId := db.nextPassId + 1
    subscriptions := incrementFirstActiveSubscription db.subscriptions auth0Id }

/-- Steps 6 to 8 of `generatePass`: persist the new row, increment the
quota, then look the member up for the confirmation email — that step 7
lookup can throw `NotFoundException` after the writes were persisted, so
its error carries the already-updated store. -/
def finalizeIssue (db : DB) (now : Nat) (randomSuffix auth0Id : String)
    (dto : GeneratePassDto) (subscription : Subscription) :
    Except (PassError × DB) (DB × Nat) :=
  match (dbAfterIssue db (issuedPassRecord db now randomSuffix auth0Id dto subscription)
      auth0Id).users.find? (fun u => u.auth0Id == auth0Id) with
  | none =>
    .error (.userNotFound,
      dbAfterIssue db (issuedPassRecord db now randomSuffix auth0Id dto subscription) auth0Id)
  | some _ =>
    .ok (dbAfterIssue db (issuedPassRecord db now randomSuffix auth0Id dto subscription) auth0Id,
      (issuedPassRecord db now randomSuffix auth0Id dto subscription).id)

/-- `PassesService.generatePass` (version with the quota and
duplicate-active-pass checks).  Errors carry the store as it stands when
the exception is thrown: every check precedes the insert, but the step 7
member lookup for the confirmation email can throw after the pass row and
the quota increment were persisted.  On success the result is the new
store and the new `pass_id`.  The fire-and-forget email of step 8 has no
effect on the store or the result. -/
def generatePass (db : DB) (now : Nat) (randomSuffix : String) (auth0Id : String)
    (dto : GeneratePassDto) : Except (PassError × DB) (DB × Nat) :=
  if dto.auth0_id ≠ auth0Id then .error (.forbiddenNotSelf, db)
  else
    match findActiveSubscription db.subscriptions auth0Id with
    | none => .error (.noActiveSubscription, db)
    | some subscription =>
      if subscription.monthlyLimit ≤ subscription.visitsUsed then
        .error (.quotaExceeded subscription.visitsUsed subscription.monthlyLimit, db)
      else if hasActivePass db.passes auth0Id now then
        .error (.duplicateActivePass, db)
      else
        match db.gyms.find? (fun g => g.id == dto.gym_id) with
        | none => .error (.gymNotFound, db)
        | some gym =>
          if gym.status ≠ "active" then .error (.gymInactive, db)
          else if ¬ validateTierAccess subscription.tier gym.requiredTier then
            .error (.tierNotAllowed subscription.tier gym.requiredTier, db)
          else finalizeIssue db now randomSuffix auth0Id dto subscription

/-- Number of passes of a member with `valid_until > now`. -/
def activePassCount (passes : List GymPass) (uid : String) (now : Nat) : Nat :=
  (passes.filter (isActivePassFor now uid)).length

/-- The binding invariant of the spec: at most one pass per member has
`valid_until > now`. -/
def atMostOneActivePass (db : DB) (now : Nat) : Prop :=
  ∀ uid, activePassCount db.passes uid now ≤ 1

/-! ## Expiration sweep (`PassesCronService.expirePasses`) -/

/-- The `WHERE` clause of the bulk update: status `active` and
`valid_until IS NOT NULL AND valid_until <= now`. -/
def shouldExpire (now : Nat) (p : GymPass) : Bool :=
  p.status == "active" && p.validUntil.any (fun v => decide (v ≤ now))

/-- Effect of the bulk update on one row. -/
def expirePassesUpdate (now : Nat) (p : GymPass) : GymPass :=
  if shouldExpire now p then { p with status := "expired" } else p

/-- `PassesCronService.expirePasses`: one conditional bulk `UPDATE` setting
status `expired` on every matching row; the second component is the
affected-row count the service logs. -/
def expirePasses (db : DB) (now : Nat) : DB × Nat :=
  ({ db with passes := db.passes.map (expirePassesUpdate now) },
    (db.passes.filter (shouldExpire now)).length)

/-! ## Role-scoped staff reads (`UsersService.findAdminGyms`,
`UsersService.findAdminPasses`)

Pagination, the optional search filter and the response-DTO mapping are
orthogonal to the visibility scope and are omitted: the embedding returns
the scoped row set selected by the role-dependent `WHERE` clause. -/

/-- Failure outcome of the scoped staff reads: the caller is not in
`admin_users` (`ForbiddenException`). -/
inductive AdminReadError where
  | forbiddenNotAdmin
  deriving Repr, DecidableEq

/-- `UsersService.findAdminGyms`: role `admin` sees the gyms of its chain
(empty without a chain id), `gym_admin`/`gym_staff` see their assigned
gyms (empty without assignments), any other role sees nothing. -/
def findAdminGyms (db : DB) (auth0Id : String) : Except AdminReadError (List Gym) :=
  match db.admins.find? (fun a => a.auth0Id == auth0Id) with
  | none => .error .forbiddenNotAdmin
  | some adminUser =>
    if adminUser.role == "admin" then
      if truthyChainId adminUser.gymChainId then
        .ok (db.gyms.filter (fun g => g.gymChainId == adminUser.gymChainId))
      else .ok []
    else if adminUser.role == "gym_admin" || adminUser.role == "gym_staff" then
      match adminUser.accessGyms with
      | some gymIds =>
        if 0 < gymIds.length then .ok (db.gyms.filter (fun g => gymIds.contains g.id))
        else .ok []
      | none => .ok []
    else .ok []

/-- The `INNER JOIN` of a pass with its gym. -/
def passGymOf (db : DB) (p : GymPass) : Option Gym :=
  db.gyms.find? (fun g => g.id == p.gymId)

/-- `UsersService.findAdminPasses`: same role dispatch as `findAdminGyms`,
the scope applied to passes through the inner join with `gyms`. -/
def findAdminPasses (db : DB) (auth0Id : String) : Except AdminReadError (List GymPass) :=
  match db.admins.find? (fun a => a.auth0Id == auth0Id) with
  | none => .error .forbiddenNotAdmin
  | some adminUser =>
    if adminUser.role == "admin" then
      if truthyChainId adminUser.gymChainId then
        .ok (db.passes.filter (fun p =>
          (passGymOf db p).any (fun g => g.gymChainId == adminUser.gymChainId)))
      else .ok []
    else if adminUser.role == "gym_admin" || adminUser.role == "gym_staff" then
      match adminUser.accessGyms with
      | some gymIds =>
        if 0 < gymIds.length then
          .ok (db.passes.filter (fun p => (passGymOf db p).isSome && gymIds.contains p.gymId))
        else .ok []
      | none => .ok []
    else .ok []

/-! ## Check-in (`UsersService.checkInPass`) -/

/-- Failure outcomes of `checkInPass`.  `chainMismatch` carries the chain
name interpolated into the message "This pass is not allowed for ...". -/
inductive CheckInError where
  | forbiddenNotAdmin
  | adminChainMissing
  | passNotFound
  | chainMismatch (gymChainName : String)
  deriving Repr, DecidableEq

/-- The pass view returned on a successful check-in (`AdminCheckInResponseDto`
without the created/updated audit timestamps). -/
structure AdminCheckInResponse where
  id : Nat
  userId : String
  gymId : Nat
  passCode : String
  status : String
  validUntil : Option Nat
  usedAt : Option Nat
  qrCodeUrl : String
  deriving Repr, DecidableEq

/-- The canonical pass-code prefix. -/
def passPrefixS : String := "PASS-"

/-- Normalization of the presented code in `checkInPass`: trim, then
prepend the prefix unless the upper-cased code already starts with it; a
code that already carries the prefix in any casing is kept verbatim. -/
def normalizePassCode (passCode : String) : String :=
  if jsStartsWith (toUpperCase (jsTrim passCode)) passPrefixS then jsTrim passCode
  else "PASS-" ++ jsTrim passCode

/-- The step 2 query of `checkInPass`: first pass (inner-joined with its
gym) whose `pass_code` equals the normalized code. -/
def findPassWithGym (db : DB) (code : String) : Option (GymPass × Gym) :=
  (db.passes.filterMap (fun p => (passGymOf db p).map (fun g => (p, g)))).find?
    (fun pg => pg.1.passCode == code)

/-- `pass.gym?.gymChain?.name || 'Unknown Gym Chain'` of the source (an
empty name is falsy and also yields the fallback). -/
def gymChainNameOf (db : DB) (g : Gym) : String :=
  match g.gymChainId.bind (fun cid => db.chains.find? (fun c => c.id == cid)) with
  | some c => if c.name == "" then "Unknown Gym Chain" else c.name
  | none => "Unknown Gym Chain"

/-- `UsersService.checkInPass`: normalize the code, require the caller to
be a staff account with a (truthy) chain id, look the pass up by code, and
require the pass's gym's chain to equal the caller's chain.  The function
issues only `SELECT`s: it returns a view of the stored row and never
writes the store, so no store appears in the result. -/
def checkInPass (db : DB) (adminAuth0Id : String) (passCode : String) :
    Except CheckInError AdminCheckInResponse :=
  let normalizedPassCode := normalizePassCode passCode
  match db.admins.find? (fun a => a.auth0Id == adminAuth0Id) with
  | none => .error .forbiddenNotAdmin
  | some adminUser =>
    if truthyChainId adminUser.gymChainId = false then .error .adminChainMissing
    else
      match findPassWithGym db normalizedPassCode with
      | none => .error .passNotFound
      | some (p, gym) =>
        if truthyChainId gym.gymChainId = false ∨ gym.gymChainId ≠ adminUser.gymChainId then
          .error (.chainMismatch (gymChainNameOf db gym))
        else
          .ok { id := p.id, userId := p.userId, gymId := p.gymId, passCode := p.passCode,
                status := p.status, validUntil := p.validUntil, usedAt := p.usedAt,
                qrCodeUrl := p.qrcodeUrl }

/-! ## Staff-account creation (`UsersService.createAdminUser`) -/

/-- Failure outcomes of `createAdminUser`, in the order the source checks
them. -/
inductive CreateUserError where
  | forbiddenNotAdmin
  | gymStaffCannotCreate
  | invalidRole
  | chainMissing
  | notFromOwnAccessGyms (invalidGyms : List Nat)
  | gymsNotFound (notFoundGyms : List Nat)
  | gymsNotInChain (gymIds : List Nat)
  | auth0CreateFailed
  | adminUserAlreadyExists
  deriving Repr, DecidableEq

/-- Body of the `CreateAdminUserDto` request (identity fields omitted, as
in `AdminUser`). -/
structure CreateAdminUserDto where
  role : String
  access_gyms : Option (List Nat)
  deriving Repr, DecidableEq

/-- Step 4 of `createAdminUser`, reached only for a non-empty requested
gym list: a `gym_admin` may only assign gyms from its own `access_gyms`
(a missing own list invalidates every request), all requested gyms must
exist, and all must belong to the creator's chain. -/
def validateAccessGyms (db : DB) (adminUser : AdminUser) (gymIds : List Nat) :
    Option CreateUserError :=
  let ownCheck : Option CreateUserError :=
    if adminUser.role == "gym_admin" then
      let invalidGyms := gymIds.filter (fun gid =>
        match adminUser.accessGyms with
        | none => true
        | some own => !(own.contains gid))
      if invalidGyms.isEmpty then none else some (.notFromOwnAccessGyms invalidGyms)
    else none
  match ownCheck with
  | some e => some e
  | none =>
    let gyms := db.gyms.filter (fun g => gymIds.contains g.id)
    let foundGymIds := gyms.map (fun g => g.id)
    let notFoundGyms := gymIds.filter (fun gid => !(foundGymIds.contains gid))
    if notFoundGyms.isEmpty then
      let gymsNotInChain := gyms.filter (fun g => !(g.gymChainId == adminUser.gymChainId))
      if gymsNotInChain.isEmpty then none
      else some (.gymsNotInChain (gymsNotInChain.map (fun g => g.id)))
    else some (.gymsNotFound notFoundGyms)

/-- `UsersService.createAdminUser`.  `auth0Result` is the outcome of the
external Auth0 user creation (`none` = the provider failed).  Every thrown
exception precedes the `admin_users` insert, so errors leave the store
unchanged; on success the new staff record (chain inherited from the
creator, requested gyms or `null` when the request was empty) is
appended. -/
def createAdminUser (db : DB) (adminAuth0Id : String) (dto : CreateAdminUserDto)
    (auth0Result : Option String) : Except CreateUserError DB :=
  match db.admins.find? (fun a => a.auth0Id == adminAuth0Id) with
  | none => .error .forbiddenNotAdmin
  | some adminUser =>
    if adminUser.role == "gym_staff" then .error .gymStaffCannotCreate
    else if !(adminUser.role == "admin" || adminUser.role == "gym_admin") then
      .error .invalidRole
    else if truthyChainId adminUser.gymChainId = false then .error .chainMissing
    else
      let accessGymsError : Option CreateUserError :=
        match dto.access_gyms with
        | some gymIds =>
          if 0 < gymIds.length then validateAccessGyms db adminUser gymIds else none
        | none => none
      match accessGymsError with
      | some e => .error e
      | none =>
        match auth0Result with
        | none => .error .auth0CreateFailed
        | some auth0UserId =>
          if db.admins.any (fun a => a.auth0Id == auth0UserId) then
            .error .adminUserAlreadyExists
          else
            .ok { db with admins := db.admins ++ [{
              auth0Id := auth0UserId
              gymChainId := adminUser.gymChainId
              role := dto.role
              accessGyms := match dto.access_gyms with
                            | some gymIds => if 0 < gymIds.length then some gymIds else none
                            | none => none }] }

/-! ## Concrete data for witnesses and counterexamples -/

/-- Sample tier strings used by concrete witnesses. -/
def tierStandardS : String := "standard"

def tierPremiumS : String := "premium"

def tierEliteS : String := "elite"

/-- A tier string that is not a key of `tierLevels`. -/
def tierUnknownS : String := "bronze"

def memberOneS : String := "member-1"

def memberTwoS : String := "member-2"

def adminOneS : String := "admin-1"

def adminTwoS : String := "admin-2"

def gymAdminOneS : String := "gadmin-1"

def gymAdminTwoS : String := "gadmin-2"

def gymStaffOneS : String := "staff-1"

def mysteryRoleS : String := "mystery-1"

def noChainAdminS : String := "nochain-1"

def emptyGymsS : String := "emptygyms-1"

def newStaffIdS : String := "new-staff-9"

def suffixSampleS : String := "ABCDEFGHI"

def passCodeOneS : String := "PASS-1-X"

def passCodeTwoS : String := "PASS-2-Y"

/-- The stored code of `passInDate` with the prefix lower-cased. -/
def passCodeOneLowerS : String := "pass-1-X"

def codeRawS : String := "ABC123"

def codePrefixedS : String := "PASS-ABC123"

def chainOne : GymChain := { id := 1, name := "Chain One" }

def chainTwo : GymChain := { id := 2, name := "Chain Two" }

def gymOne : Gym :=
  { id := 10, gymChainId := some 1, requiredTier := "standard", status := "active" }

def gymTwo : Gym :=
  { id := 20, gymChainId := some 2, requiredTier := "standard", status := "active" }

def userOne : AppUser := { auth0Id := memberOneS, email := "m1@example.test" }

def userTwo : AppUser := { auth0Id := memberTwoS, email := "m2@example.test" }

/-- Active subscription of member 1 with quota available. -/
def subFresh : Subscription :=
  { userId := memberOneS, tier := "standard", monthlyLimit := 5, visitsUsed := 0,
    status := "active" }

/-- Active subscription of member 1 with the quota exhausted (5 of 5). -/
def subExhausted : Subscription :=
  { userId := memberOneS, tier := "standard", monthlyLimit := 5, visitsUsed := 5,
    status := "active" }

/-- Active subscription of member 2 with quota available. -/
def subFreshTwo : Subscription :=
  { userId := memberTwoS, tier := "standard", monthlyLimit := 5, visitsUsed := 0,
    status := "active" }

/-- An in-date pass of member 1 (`valid_until` 200, ahead of the witness
clock 100). -/
def passInDate : GymPass :=
  { id := 1, userId := memberOneS, gymId := 10, passCode := passCodeOneS,
    status := "active", validUntil := some 200, usedAt := none, qrcodeUrl := "",
    subscriptionTier := some "standard", passCost := 0, createdAt := 1 }

/-- An expired pass of member 1 (`valid_until` 50, behind the witness
clock 100, status already `expired`). -/
def passExpired : GymPass :=
  { id := 2, userId := memberOneS, gymId := 10, passCode := passCodeTwoS,
    status := "expired", validUntil := some 50, usedAt := none, qrcodeUrl := "",
    subscriptionTier := some "standard", passCost := 0, createdAt := 1 }

/-- A pass of member 1 whose code equals `makePassCode 100 suffixSampleS`,
no longer in date. -/
def passDup : GymPass :=
  { id := 1, userId := memberOneS, gymId := 10, passCode := makePassCode 100 suffixSampleS,
    status := "expired", validUntil := some 50, usedAt := none, qrcodeUrl := "",
    subscriptionTier := some "standard", passCost := 0, createdAt := 1 }

/-- Store for issuance witnesses: member 1 with an active subscription and
no passes. -/
def dbNoPasses : DB :=
  { users := [userOne], admins := [], subscriptions := [subFresh], gyms := [gymOne],
    chains := [chainOne], passes := [], pricing := [], nextPassId := 1 }

/-- Store in which member 1 already holds an in-date pass. -/
def dbWithActivePass : DB := { dbNoPasses with passes := [passInDate], nextPassId := 2 }

/-- Store in which member 1 has exhausted the monthly quota. -/
def dbQuota : DB := { dbNoPasses with subscriptions := [subExhausted] }

/-- Store for the pass-code collision run: member 1 already owns a row
whose code is `makePassCode 100 suffixSampleS`; member 2 is entitled to a
new pass. -/
def dbCollision : DB :=
  { users := [userOne, userTwo], admins := [],
    subscriptions := [subFresh, subFreshTwo], gyms := [gymOne], chains := [chainOne],
    passes := [passDup], pricing := [], nextPassId := 2 }

/-- The issuance run of the C1 witness. -/
def issueAttempt : Except (PassError × DB) (DB × Nat) :=
  generatePass dbNoPasses 100 suffixSampleS memberOneS
    { auth0_id := memberOneS, gym_id := 10 }

/-- Store after the successful issuance run of the C1 witness. -/
def dbIssued : DB :=
  match issueAttempt with
  | .ok (d, _) => d
  | .error (_, d) => d

/-- The issuance run of the pass-code collision: member 2, clock 100, the
same random suffix as the stored row. -/
def collisionAttempt : Except (PassError × DB) (DB × Nat) :=
  generatePass dbCollision 100 suffixSampleS memberTwoS
    { auth0_id := memberTwoS, gym_id := 10 }

/-- Staff account: chain admin of chain 1 (role string `admin`). -/
def adminChainOne : AdminUser :=
  { auth0Id := adminOneS, gymChainId := some 1, role := "admin", accessGyms := none }

/-- Staff account: chain admin of chain 2. -/
def adminChainTwo : AdminUser :=
  { auth0Id := adminTwoS, gymChainId := some 2, role := "admin", accessGyms := none }

/-- Staff account: gym admin of chain 1 assigned only gym 99 — not the gym
of any stored pass. -/
def adminGymSubset : AdminUser :=
  { auth0Id := gymAdminOneS, gymChainId := some 1, role := "gym_admin",
    accessGyms := some [99] }

/-- Staff account: gym admin of chain 1 assigned gym 10, used as creator in
the C9 witness. -/
def adminGymCreator : AdminUser :=
  { auth0Id := gymAdminTwoS, gymChainId := some 1, role := "gym_admin",
    accessGyms := some [10] }

/-- Staff account: gym staff of chain 1. -/
def adminStaffOne : AdminUser :=
  { auth0Id := gymStaffOneS, gymChainId := some 1, role := "gym_staff",
    accessGyms := some [10] }

/-- Staff account with an unrecognized role. -/
def adminMysteryRole : AdminUser :=
  { auth0Id := mysteryRoleS, gymChainId := some 1, role := "receptionist",
    accessGyms := some [10] }

/-- Chain-admin staff account with no chain id. -/
def adminNoChain : AdminUser :=
  { auth0Id := noChainAdminS, gymChainId := none, role := "admin", accessGyms := none }

/-- Gym-staff account with an empty assigned-gyms set. -/
def adminEmptyGyms : AdminUser :=
  { auth0Id := emptyGymsS, gymChainId := some 1, role := "gym_staff",
    accessGyms := some [] }

/-- Store for the scoped-read witnesses: gyms and passes exist, so an empty
result is not the universal set. -/
def dbAdminRead : DB :=
  { users := [userOne], admins := [adminMysteryRole, adminNoChain, adminEmptyGyms],
    subscriptions := [], gyms := [gymOne, gymTwo], chains := [chainOne, chainTwo],
    passes := [passInDate], pricing := [], nextPassId := 3 }

/-- Store for the check-in witnesses: chains 1 and 2, an in-date pass and
an expired pass, both at gym 10 of chain 1. -/
def dbCheckIn : DB :=
  { users := [userOne], admins := [adminChainOne, adminChainTwo, adminGymSubset],
    subscriptions := [], gyms := [gymOne, gymTwo], chains := [chainOne, chainTwo],
    passes := [passInDate, passExpired], pricing := [], nextPassId := 3 }

/-- Store for the staff-creation witnesses. -/
def dbCreate : DB :=
  { users := [], admins := [adminStaffOne, adminGymCreator], subscriptions := [],
    gyms := [gymOne, gymTwo], chains := [chainOne, chainTwo], passes := [],
    pricing := [], nextPassId := 3 }

/-- Creation request with no gym assignments. -/
def dtoStaffReq : CreateAdminUserDto := { role := "gym_staff", access_gyms := none }

/-- Creation request assigning gym 20, which is outside the creator's own
`access_gyms` set `[10]`. -/
def dtoOutsideReq : CreateAdminUserDto :=
  { role := "gym_staff", access_gyms := some [10, 20] }

/-! ## Theorems -/

lemma tierLevels_getD_le_three (t : String) : (tierLevels t).getD 0 ≤ 3 := by
  unfold tierLevels
  split_ifs <;> simp

/-- Claim C3 counterexample: an unknown subscription tier string is not
`standard`-equivalent.  The code ranks it at level 0, strictly below
`standard` (level 1), so `bronze` is refused access to a `standard` gym
that a `standard` subscription may enter. -/
theorem validateTierAccess_unknown_counterexample :
    validateTierAccess tierUnknownS tierStandardS = false
    ∧ validateTierAccess tierStandardS tierStandardS = true := by
  constructor <;> decide

/-- Claim C3 (amended): tier gating is the fixed total order
`standard < premium < elite`; issuance passes the tier check iff the
subscription tier level is at least the gym required tier level, where an
unknown subscription tier ranks lowest at level 0 — strictly below
`standard`, so it is blocked from every gym — and an unknown gym tier
ranks highest, blocking all access. -/
theorem validateTierAccess_amended_spec :
    (∀ s g, validateTierAccess s g = true ↔ specGymLevel g ≤ specSubscriptionLevel s)
    ∧ (∀ s g, tierLevels (toLowerCase g) = none → validateTierAccess s g = false)
    ∧ (∀ s g, tierLevels (toLowerCase s) = none → validateTierAccess s g = false) := by
  refine ⟨?_, ?_, ?_⟩
  · intro s g
    unfold validateTierAccess specSubscriptionLevel specGymLevel tierLevels
    split_ifs <;> simp
  · intro s g hg
    unfold validateTierAccess
    rw [hg]
    have hs := tierLevels_getD_le_three (toLowerCase s)
    simp only [Option.getD_none]
    rw [decide_eq_false_iff_not]
    omega
  · intro s g hs
    unfold validateTierAccess
    rw [hs]
    unfold tierLevels
    split_ifs <;> simp

/-- Claim C3 witness: an `elite` subscription is blocked from a gym whose
required tier string is unknown, and an unknown subscription tier is
blocked from a `standard` gym. -/
theorem validateTierAccess_amended_witness :
    validateTierAccess tierEliteS tierUnknownS = false
    ∧ validateTierAccess tierUnknownS tierStandardS = false := by
  constructor
  · exact validateTierAccess_amended_spec.2.1 tierEliteS tierUnknownS (by decide)
  · exact validateTierAccess_amended_spec.2.2 tierUnknownS tierStandardS (by decide)

lemma generatePass_ok_shape {db : DB} {now : Nat} {r auth0Id : String}
    {dto : GeneratePassDto} {db2 : DB} {pid : Nat}
    (h : generatePass db now r auth0Id dto = .ok (db2, pid)) :
    hasActivePass db.passes auth0Id now = false ∧
    ∃ p : GymPass, p.userId = auth0Id ∧ p.validUntil = some (now + 2 * 60 * 60 * 1000) ∧
      db2.passes = db.passes ++ [p] := by
  unfold generatePass at h
  split at h
  · exact absurd h (by simp)
  · split at h
    · exact absurd h (by simp)
    · rename_i subscription hsubeq
      split at h
      · exact absurd h (by simp)
      · split at h
        · exact absurd h (by simp)
        · rename_i hdup
          split at h
          · exact absurd h (by simp)
          · split at h
            · exact absurd h (by simp)
            · split at h
              · exact absurd h (by simp)
              · unfold finalizeIssue at h
                split at h
                · exact absurd h (by simp)
                · rw [Except.ok.injEq, Prod.mk.injEq] at h
                  refine ⟨by simpa using hdup,
                    issuedPassRecord db now r auth0Id dto subscription, rfl, rfl, ?_⟩
                  rw [← h.1]
                  rfl

/-- Claim C1: a member who already holds a pass with `valid_until > now`
cannot be issued another one.  First conjunct: when the preceding checks
pass (the request is for the caller, an active subscription exists, quota
is not exhausted), `generatePass` fails with `DuplicateActivePass` and the
store is returned unchanged — no new `gym_passes` row.  Second conjunct:
issuance preserves the invariant that at most one pass per member has
`valid_until > now`. -/
theorem generatePass_duplicateActivePass_spec :
    (∀ (db : DB) (now : Nat) (r auth0Id : String) (dto : GeneratePassDto) (sub : Subscription),
        dto.auth0_id = auth0Id →
        findActiveSubscription db.subscriptions auth0Id = some sub →
        sub.visitsUsed < sub.monthlyLimit →
        hasActivePass db.passes auth0Id now = true →
        generatePass db now r auth0Id dto = .error (.duplicateActivePass, db))
    ∧ (∀ (db : DB) (now : Nat) (r auth0Id : String) (dto : GeneratePassDto) (db2 : DB) (pid : Nat),
        atMostOneActivePass db now →
        generatePass db now r auth0Id dto = .ok (db2, pid) →
        atMostOneActivePass db2 now) := by
  constructor
  · intro db now r auth0Id dto sub hauth hsub hquota hdup
    unfold generatePass
    rw [hsub]
    simp [hauth, hdup, Nat.not_le.mpr hquota]
  · intro db now r auth0Id dto db2 pid hinv hok
    obtain ⟨hnone, p, hpuid, hpvalid, hpasses⟩ := generatePass_ok_shape hok
    intro uid
    have hold := hinv uid
    unfold activePassCount at hold ⊢
    rw [hpasses, List.filter_append, List.length_append]
    by_cases huid : uid = auth0Id
    · subst huid
      have hallfalse : ∀ q ∈ db.passes, isActivePassFor now uid q = false := by
        intro q hq
        by_cases hq2 : isActivePassFor now uid q = true
        · exfalso
          unfold hasActivePass at hnone
          rw [← Bool.not_eq_true, List.any_eq_true] at hnone
          exact hnone ⟨q, hq, hq2⟩
        · simpa using hq2
      have hnil : db.passes.filter (isActivePassFor now uid) = [] :=
        List.filter_eq_nil_iff.mpr (by intro a ha; simp [hallfalse a ha])
      rw [hnil]
      simp only [List.length_nil, Nat.zero_add]
      cases hpa : isActivePassFor now uid p <;> simp [List.filter, hpa]
    · have hpfalse : isActivePassFor now uid p = false := by
        unfold isActivePassFor
        have hne : (p.userId == uid) = false := by
          rw [hpuid]
          simp [Ne.symm huid]
        simp [hne]
      have hfilnil : List.filter (isActivePassFor now uid) [p] = [] := by
        simp [List.filter, hpfalse]
      rw [hfilnil]
      simpa using hold

/-- Claim C1 witness: with an in-date pass (`valid_until` 200, clock 100)
already held, a second issuance for the same member fails with
`DuplicateActivePass` and the store is unchanged; and issuance from a
store with no passes preserves the single-active-pass invariant. -/
theorem generatePass_duplicateActivePass_witness :
    generatePass dbWithActivePass 100 suffixSampleS memberOneS
        { auth0_id := memberOneS, gym_id := 10 } =
      .error (.duplicateActivePass, dbWithActivePass)
    ∧ atMostOneActivePass dbIssued 100 := by
  constructor
  · exact generatePass_duplicateActivePass_spec.1 dbWithActivePass 100 suffixSampleS memberOneS
      { auth0_id := memberOneS, gym_id := 10 } subFresh rfl (by decide) (by decide) (by decide)
  · exact generatePass_duplicateActivePass_spec.2 dbNoPasses 100 suffixSampleS memberOneS
      { auth0_id := memberOneS, gym_id := 10 } dbIssued 1
      (by intro uid; simp [activePassCount, dbNoPasses, List.filter]) rfl

/-- Claim C2: with the quota exhausted (`visits_used >= monthly_limit`),
`generatePass` fails with the quota error before any row is written: the
store is returned unchanged (no new `gym_passes` row, `visits_used` not
incremented), the error records both counts, and its message interpolates
them as "used X of Y". -/
theorem generatePass_quotaExceeded_spec :
    ∀ (db : DB) (now : Nat) (r auth0Id : String) (dto : GeneratePassDto) (sub : Subscription),
      dto.auth0_id = auth0Id →
      findActiveSubscription db.subscriptions auth0Id = some sub →
      sub.monthlyLimit ≤ sub.visitsUsed →
      generatePass db now r auth0Id dto =
          .error (.quotaExceeded sub.visitsUsed sub.monthlyLimit, db)
      ∧ ∃ pre post, passErrorMessage (.quotaExceeded sub.visitsUsed sub.monthlyLimit) =
          pre ++ toString sub.visitsUsed ++ " of " ++ toString sub.monthlyLimit ++ post := by
  intro db now r auth0Id dto sub hauth hsub hquota
  constructor
  · unfold generatePass
    rw [hsub]
    simp [hauth, hquota]
  · exact ⟨"You are out of passes for this month. You have used ", " available passes.", rfl⟩

/-- Claim C2 witness: the `5 of 5` scenario — quota 5 of 5, issuance fails
with the quota error, the store is unchanged, and the message reads out
"used 5 of 5". -/
theorem generatePass_quotaExceeded_witness :
    generatePass dbQuota 100 suffixSampleS memberOneS
        { auth0_id := memberOneS, gym_id := 10 } =
      .error (.quotaExceeded 5 5, dbQuota)
    ∧ passErrorMessage (.quotaExceeded 5 5) =
        "You are out of passes for this month. You have used 5 of 5 available passes." := by
  constructor
  · exact (generatePass_quotaExceeded_spec dbQuota 100 suffixSampleS memberOneS
      { auth0_id := memberOneS, gym_id := 10 } subExhausted rfl (by decide) (by decide)).1
  · rfl

/-- Claim C6 (code bug): at the failing input — two issuance runs sharing
the same millisecond clock value and the same random suffix — the naive
`PASS-${Date.now()}-${random}` scheme reproduces an already stored code,
and with no uniqueness constraint on `pass_code` and no retry loop the
second run persists it: the store ends with two rows bearing the same
pass code. -/
theorem generatePass_passCode_collision_bug :
    (match collisionAttempt with
      | .ok (d, _) =>
        (d.passes.filter (fun p => p.passCode == makePassCode 100 suffixSampleS)).length
      | .error _ => 0) = 2 := by
  decide

lemma filter_shouldExpire_map (now : Nat) (l : List GymPass) :
    (l.map (expirePassesUpdate now)).filter (shouldExpire now) = [] := by
  induction l with
  | nil => rfl
  | cons p t ih =>
    rw [List.map_cons, List.filter_cons]
    have hfalse : shouldExpire now (expirePassesUpdate now p) = false := by
      unfold expirePassesUpdate
      split
      · unfold shouldExpire
        simp
      · rename_i hne
        simpa using hne
    simp only [hfalse]
    simpa using ih

/-- Claim C5: the sweep is a single bulk transition.  First conjunct: the
reported count is the number of rows with status `active` and
`valid_until <= now`.  Second conjunct: row `i` of the result is row `i` of
the input sent through the update — a matching row becomes `expired`, every
other row is untouched.  Third conjunct: the sweep is idempotent — run
again on its own output at the same instant it affects zero rows, so two
consecutive sweeps report `(N, 0)`. -/
theorem expirePasses_spec :
    ∀ (db : DB) (now : Nat),
      (expirePasses db now).2 = (db.passes.filter (shouldExpire now)).length
      ∧ (∀ i : Nat, (expirePasses db now).1.passes[i]? =
          (db.passes[i]?).map (expirePassesUpdate now))
      ∧ (expirePasses (expirePasses db now).1 now).2 = 0 := by
  intro db now
  refine ⟨rfl, ?_, ?_⟩
  · intro i
    simp [expirePasses, List.getElem?_map]
  · show ((expirePasses db now).1.passes.filter (shouldExpire now)).length = 0
    have : (expirePasses db now).1.passes = db.passes.map (expirePassesUpdate now) := rfl
    rw [this, filter_shouldExpire_map]
    rfl

/-- Claim C4: the fail-closed authorization contract of the scoped staff
reads.  An existing staff account with an unrecognized role, or with role
`admin` (the chain-admin role string) and no chain id, or with a gym role
and an absent or empty assigned-gyms list, receives `ok []` from both the
gyms listing and the passes listing: zero results, never an error, never
the universal set. -/
theorem emptyScope_zero_results_spec :
    ∀ (db : DB) (auth0Id : String) (a : AdminUser),
      db.admins.find? (fun x => x.auth0Id == auth0Id) = some a →
      ((a.role ≠ "admin" ∧ a.role ≠ "gym_admin" ∧ a.role ≠ "gym_staff")
        ∨ (a.role = "admin" ∧ truthyChainId a.gymChainId = false)
        ∨ ((a.role = "gym_admin" ∨ a.role = "gym_staff")
            ∧ (a.accessGyms = none ∨ a.accessGyms = some []))) →
      findAdminGyms db auth0Id = .ok [] ∧ findAdminPasses db auth0Id = .ok [] := by
  intro db auth0Id a hfind hcase
  unfold findAdminGyms findAdminPasses
  rw [hfind]
  rcases hcase with ⟨h1, h2, h3⟩ | ⟨h1, h2⟩ | ⟨h1, h2⟩
  · simp [beq_iff_eq, h1, h2, h3]
  · simp [beq_iff_eq, h1, h2]
  · rcases h1 with hr | hr <;> rcases h2 with hg | hg <;> simp [beq_iff_eq, hr, hg]

/-- Claim C4 witness: in a store holding gyms and passes, the account with
role `receptionist`, the chain admin without a chain id and the gym-staff
account with an empty gym list each see zero gyms and zero passes. -/
theorem emptyScope_zero_results_witness :
    (findAdminGyms dbAdminRead mysteryRoleS = .ok []
      ∧ findAdminPasses dbAdminRead mysteryRoleS = .ok [])
    ∧ (findAdminGyms dbAdminRead noChainAdminS = .ok []
      ∧ findAdminPasses dbAdminRead noChainAdminS = .ok [])
    ∧ (findAdminGyms dbAdminRead emptyGymsS = .ok []
      ∧ findAdminPasses dbAdminRead emptyGymsS = .ok []) := by
  refine ⟨?_, ?_, ?_⟩
  · exact emptyScope_zero_results_spec dbAdminRead mysteryRoleS adminMysteryRole
      (by decide) (by decide)
  · exact emptyScope_zero_results_spec dbAdminRead noChainAdminS adminNoChain
      (by decide) (by decide)
  · exact emptyScope_zero_results_spec dbAdminRead emptyGymsS adminEmptyGyms
      (by decide) (by decide)

lemma checkInPass_eq (db : DB) (adminId code : String) (a : AdminUser)
    (hfind : db.admins.find? (fun x => x.auth0Id == adminId) = some a)
    (hchain : truthyChainId a.gymChainId = true) :
    checkInPass db adminId code =
      match findPassWithGym db (normalizePassCode code) with
      | none => .error .passNotFound
      | some (p, gym) =>
        if truthyChainId gym.gymChainId = false ∨ gym.gymChainId ≠ a.gymChainId then
          .error (.chainMismatch (gymChainNameOf db gym))
        else
          .ok { id := p.id, userId := p.userId, gymId := p.gymId, passCode := p.passCode,
                status := p.status, validUntil := p.validUntil, usedAt := p.usedAt,
                qrCodeUrl := p.qrcodeUrl } := by
  unfold checkInPass
  rw [hfind]
  simp [hchain]

lemma find?_map_accessGyms (l : List AdminUser) (f : AdminUser → Option (List Nat))
    (adminId : String) :
    (l.map (fun x => { x with accessGyms := f x })).find? (fun x => x.auth0Id == adminId)
      = (l.find? (fun x => x.auth0Id == adminId)).map (fun x => { x with accessGyms := f x }) := by
  induction l with
  | nil => rfl
  | cons a t ih =>
    rw [List.map_cons]
    cases hpa : a.auth0Id == adminId
    · rw [List.find?_cons_of_neg _ (by simpa using hpa),
        List.find?_cons_of_neg _ (by simpa using hpa)]
      exact ih
    · rw [List.find?_cons_of_pos _ (by simpa using hpa),
        List.find?_cons_of_pos _ (by simpa using hpa)]
      rfl

/-- Claim C7: check-in authorization is chain-scoped.  First conjunct:
with the caller resolved to a staff account carrying a (truthy) chain id
and the normalized code resolved to a pass and its gym, the call fails
with the chain-mismatch error whenever the gym's chain id is falsy or
differs from the account's.  Second conjunct: an account assigned only a
set of gyms that does not even contain the pass's gym still succeeds when
its chain equals the pass's gym's chain.  Third conjunct: the assigned-gyms
column is never consulted — rewriting it arbitrarily on every account
leaves the result of `checkInPass` unchanged. -/
theorem checkInPass_chain_scoped_spec :
    (∀ (db : DB) (adminId code : String) (a : AdminUser) (p : GymPass) (g : Gym),
        db.admins.find? (fun x => x.auth0Id == adminId) = some a →
        truthyChainId a.gymChainId = true →
        findPassWithGym db (normalizePassCode code) = some (p, g) →
        (truthyChainId g.gymChainId = false ∨ g.gymChainId ≠ a.gymChainId) →
        checkInPass db adminId code = .error (.chainMismatch (gymChainNameOf db g)))
    ∧ (∀ (db : DB) (adminId code : String) (a : AdminUser) (p : GymPass) (g : Gym)
        (gyms : List Nat),
        db.admins.find? (fun x => x.auth0Id == adminId) = some a →
        truthyChainId a.gymChainId = true →
        findPassWithGym db (normalizePassCode code) = some (p, g) →
        a.accessGyms = some gyms →
        gyms.contains p.gymId = false →
        g.gymChainId = a.gymChainId →
        ∃ view, checkInPass db adminId code = .ok view)
    ∧ (∀ (db : DB) (adminId code : String) (f : AdminUser → Option (List Nat)),
        checkInPass
            { db with admins := db.admins.map (fun x => { x with accessGyms := f x }) }
            adminId code
          = checkInPass db adminId code) := by
  refine ⟨?_, ?_, ?_⟩
  · intro db adminId code a p g hfind hchain hpass hmis
    rw [checkInPass_eq db adminId code a hfind hchain, hpass]
    simp [hmis]
  · intro db adminId code a p g gyms hfind hchain hpass hgyms hnotin heq
    rw [checkInPass_eq db adminId code a hfind hchain, hpass]
    have htruthy : truthyChainId g.gymChainId = true := by rw [heq]; exact hchain
    simp [htruthy, heq, hchain]
  · intro db adminId code f
    unfold checkInPass
    rw [show ({ db with admins := db.admins.map (fun x => { x with accessGyms := f x }) } : DB).admins
        = db.admins.map (fun x => { x with accessGyms := f x }) from rfl]
    rw [find?_map_accessGyms]
    cases hf : db.admins.find? (fun x => x.auth0Id == adminId)
    · rfl
    · rfl

/-- Claim C7 witness: the chain-2 admin is refused the chain-1 pass with
the chain-mismatch error, while the chain-1 gym admin assigned only gym 99
— not the pass's gym 10 — checks the same pass in successfully. -/
theorem checkInPass_chain_scoped_witness :
    checkInPass dbCheckIn adminTwoS passCodeOneS =
      .error (.chainMismatch (gymChainNameOf dbCheckIn gymOne))
    ∧ (∃ view, checkInPass dbCheckIn gymAdminOneS passCodeOneS = .ok view) := by
  constructor
  · exact checkInPass_chain_scoped_spec.1 dbCheckIn adminTwoS passCodeOneS adminChainTwo
      passInDate gymOne (by decide) (by decide) (by decide) (by decide)
  · exact checkInPass_chain_scoped_spec.2.1 dbCheckIn gymAdminOneS passCodeOneS adminGymSubset
      passInDate gymOne [99] (by decide) (by decide) (by decide) (by decide) (by decide)
      (by decide)

/-- Claim C8 counterexample: a presented code that already carries the
prefix in non-canonical casing is kept verbatim, so the code used for the
lookup does not carry the canonical prefix casing — and the lookup then
misses the stored canonical code `PASS-1-X`. -/
theorem normalizePassCode_casing_counterexample :
    normalizePassCode passCodeOneLowerS = passCodeOneLowerS
    ∧ jsStartsWith (normalizePassCode passCodeOneLowerS) passPrefixS = false
    ∧ checkInPass dbCheckIn adminOneS passCodeOneLowerS = .error .passNotFound := by
  refine ⟨by decide, by decide, ?_⟩
  rfl

/-- Claim C8 (amended): `checkInPass` normalizes the presented code before
lookup — after trimming, if the code does not already carry the pass-code
prefix under a case-insensitive comparison, the canonical prefix `PASS-`
is prepended (so `ABC123` is looked up as `PASS-ABC123`); a code that
already carries the prefix in any casing is used verbatim, keeping its
original prefix casing. -/
theorem normalizePassCode_amended_spec :
    (∀ (db : DB) (adminId : String),
        checkInPass db adminId codeRawS = checkInPass db adminId codePrefixedS)
    ∧ normalizePassCode codeRawS = codePrefixedS
    ∧ (∀ s, jsStartsWith (toUpperCase (jsTrim s)) passPrefixS = true →
        normalizePassCode s = jsTrim s)
    ∧ (∀ s, jsStartsWith (toUpperCase (jsTrim s)) passPrefixS = false →
        normalizePassCode s = "PASS-" ++ jsTrim s) := by
  refine ⟨?_, by decide, ?_, ?_⟩
  · intro db adminId
    unfold checkInPass
    rw [show normalizePassCode codeRawS = normalizePassCode codePrefixedS by decide]
  · intro s h
    unfold normalizePassCode
    rw [h]
    simp
  · intro s h
    unfold normalizePassCode
    rw [h]
    simp

/-- Claim C8 witness: a code already carrying the canonical prefix is kept
as trimmed, and a bare code has the canonical prefix prepended. -/
theorem normalizePassCode_amended_witness :
    normalizePassCode passCodeOneS = jsTrim passCodeOneS
    ∧ normalizePassCode codeRawS = "PASS-" ++ jsTrim codeRawS := by
  constructor
  · exact normalizePassCode_amended_spec.2.2.1 passCodeOneS (by decide)
  · exact normalizePassCode_amended_spec.2.2.2 codeRawS (by decide)

/-- Claim C9: the per-action write rules of staff-account creation.  First
conjunct: a `gym_staff` caller is always refused with the dedicated
Forbidden error, before anything is created.  Second conjunct: a
`gym_admin` caller requesting gym assignments outside its own
`access_gyms` set fails with the invalid-gyms error listing exactly the
requested gyms outside that set; the error is raised before the Auth0 call
and the insert, so no account is created. -/
theorem createAdminUser_write_rules_spec :
    (∀ (db : DB) (adminId : String) (dto : CreateAdminUserDto)
        (auth0Result : Option String) (a : AdminUser),
        db.admins.find? (fun x => x.auth0Id == adminId) = some a →
        a.role = "gym_staff" →
        createAdminUser db adminId dto auth0Result = .error .gymStaffCannotCreate)
    ∧ (∀ (db : DB) (adminId : String) (dto : CreateAdminUserDto)
        (auth0Result : Option String) (a : AdminUser) (gymIds own : List Nat),
        db.admins.find? (fun x => x.auth0Id == adminId) = some a →
        a.role = "gym_admin" →
        truthyChainId a.gymChainId = true →
        dto.access_gyms = some gymIds →
        a.accessGyms = some own →
        (gymIds.filter (fun gid => !(own.contains gid))).isEmpty = false →
        createAdminUser db adminId dto auth0Result =
          .error (.notFromOwnAccessGyms (gymIds.filter (fun gid => !(own.contains gid))))) := by
  constructor
  · intro db adminId dto auth0Result a hfind hrole
    unfold createAdminUser
    rw [hfind]
    simp [beq_iff_eq, hrole]
  · intro db adminId dto auth0Result a gymIds own hfind hrole hchain hdto hown hfilter
    have hlen : 0 < gymIds.length := by
      cases gymIds with
      | nil => simp at hfilter
      | cons x xs => simp
    have hnall : ¬ ∀ x ∈ gymIds, x ∈ own := by
      intro hall
      have hnil : gymIds.filter (fun gid => !(own.contains gid)) = [] := by
        apply List.filter_eq_nil_iff.mpr
        intro gid hgid
        simp [hall gid hgid]
      rw [hnil] at hfilter
      simp at hfilter
    unfold createAdminUser validateAccessGyms
    rw [hfind, hdto]
    simp [beq_iff_eq, hrole, hchain, hlen, hown, hnall]

/-- Claim C9 witness: the gym-staff account is refused outright; the gym
admin whose own set is `[10]` requesting `[10, 20]` fails with gym 20
reported invalid. -/
theorem createAdminUser_write_rules_witness :
    createAdminUser dbCreate gymStaffOneS dtoStaffReq (some newStaffIdS) =
      .error .gymStaffCannotCreate
    ∧ createAdminUser dbCreate gymAdminTwoS dtoOutsideReq (some newStaffIdS) =
      .error (.notFromOwnAccessGyms [20]) := by
  constructor
  · exact createAdminUser_write_rules_spec.1 dbCreate gymStaffOneS dtoStaffReq
      (some newStaffIdS) adminStaffOne (by decide) rfl
  · exact createAdminUser_write_rules_spec.2 dbCreate gymAdminTwoS dtoOutsideReq
      (some newStaffIdS) adminGymCreator [10, 20] [10] (by decide) rfl (by decide)
      rfl rfl (by decide)

/-- Claim C10: check-in never inspects the pass's status or expiry.  Under
the chain-match conditions alone — with no hypothesis on `status` or
`valid_until` — `checkInPass` succeeds and returns a view echoing the
stored fields verbatim (`status` and `used_at` included).  The function's
result type carries no store: the source issues only `SELECT`s, so no
`gym_passes` field is ever written — in particular status is never set to
`used` and `used_at` is never filled. -/
theorem checkInPass_ignores_status_spec :
    ∀ (db : DB) (adminId code : String) (a : AdminUser) (p : GymPass) (g : Gym),
      db.admins.find? (fun x => x.auth0Id == adminId) = some a →
      truthyChainId a.gymChainId = true →
      findPassWithGym db (normalizePassCode code) = some (p, g) →
      g.gymChainId = a.gymChainId →
      checkInPass db adminId code =
        .ok { id := p.id, userId := p.userId, gymId := p.gymId, passCode := p.passCode,
              status := p.status, validUntil := p.validUntil, usedAt := p.usedAt,
              qrCodeUrl := p.qrcodeUrl } := by
  intro db adminId code a p g hfind hchain hpass heq
  rw [checkInPass_eq db adminId code a hfind hchain, hpass]
  have htruthy : truthyChainId g.gymChainId = true := by rw [heq]; exact hchain
  simp [htruthy, heq, hchain]

/-- Claim C10 witness: the stored pass with status `expired` and
`valid_until` 50 — long past — is checked in successfully, the view
echoing the expired status and the empty `used_at`. -/
theorem checkInPass_ignores_status_witness :
    checkInPass dbCheckIn adminOneS passCodeTwoS =
      .ok { id := 2, userId := memberOneS, gymId := 10, passCode := passCodeTwoS,
            status := "expired", validUntil := some 50, usedAt := none, qrCodeUrl := "" } := by
  exact checkInPass_ignores_status_spec dbCheckIn adminOneS passCodeTwoS adminChainOne
    passExpired gymOne (by decide) (by decide) (by decide) (by decide)

end Anygym
